import Mathlib

/-!
Shallow embedding of the `MultiStoryContainer` component
(`src/unnamed/part_000`) of the story-view repository, together with
theorems settling the frozen claims about it.

Conventions of the embedding:
* JavaScript numbers holding list indices are modelled as `Int`
  (`storyIndex` arithmetic such as `stories.length - 1` is integer
  arithmetic in JS, never truncated at zero).
* An optional-chaining call such as `flatListRef.current?.scrollToIndex`
  or `onComplete?.()` is recorded as an issued command; the container's
  imperative side effects are gathered into explicit effect lists.
* JSX rendering is modelled as a pure function from props/state to a
  first-order tree of the rendered elements with the props the claims
  talk about.
-/

namespace StoryView

/-- An imperative effect issued by the container's navigation callbacks:
either a `scrollToIndex` command sent to the FlatList ref, or an
invocation of the `onComplete` callback. -/
inductive Effect where
  | scrollToIndex (index : Int) (animated : Bool)
  | onComplete
  deriving DecidableEq, Repr

/-- `nextStory` (part_000 lines 156-166): when `storyIndex + 1` equals
`stories.length` it calls `onComplete?.()` and returns; when
`storyIndex >= stories.length - 1` (but the previous guard failed) it
returns silently; otherwise it issues one animated `scrollToIndex` to
`storyIndex + 1`. -/
def nextStory (storiesLen : Nat) (storyIndex : Int) : List Effect :=
  if storyIndex + 1 = (storiesLen : Int) then
    [Effect.onComplete]
  else if storyIndex ≥ (storiesLen : Int) - 1 then
    []
  else
    [Effect.scrollToIndex (storyIndex + 1) true]

/-- `previousStory` (part_000 lines 168-174): returns silently when
`storyIndex === 0`, otherwise issues one animated `scrollToIndex` to
`storyIndex - 1`. -/
def previousStory (storyIndex : Int) : List Effect :=
  if storyIndex = 0 then
    []
  else
    [Effect.scrollToIndex (storyIndex - 1) true]

end StoryView

namespace StoryView

/-- C1: when `storyIndex + 1 = stories.length`, `nextStory` invokes only
the `onComplete` callback and issues no scroll command; when
`storyIndex + 1 < stories.length`, it issues exactly one animated
`scrollToIndex` command targeting `storyIndex + 1` and does not invoke
`onComplete`. -/
theorem nextStory_spec (storiesLen : Nat) (storyIndex : Int) :
    (storyIndex + 1 = (storiesLen : Int) →
      nextStory storiesLen storyIndex = [Effect.onComplete]) ∧
    (storyIndex + 1 < (storiesLen : Int) →
      nextStory storiesLen storyIndex =
        [Effect.scrollToIndex (storyIndex + 1) true]) := by
  constructor
  · intro h
    simp [nextStory, h]
  · intro h
    have h1 : ¬ (storyIndex + 1 = (storiesLen : Int)) := by omega
    have h2 : ¬ (storyIndex ≥ (storiesLen : Int) - 1) := by omega
    simp [nextStory, h1, h2]

/-- Witness for C1 at `stories.length = 3`: `nextStory` completes at
index 2 and scrolls from index 0 to index 1. -/
theorem nextStory_spec_witness :
    nextStory 3 2 = [Effect.onComplete] ∧
    nextStory 3 0 = [Effect.scrollToIndex 1 true] :=
  ⟨(nextStory_spec 3 2).1 (by decide), (nextStory_spec 3 0).2 (by decide)⟩

/-- C2: `previousStory` at `storyIndex = 0` issues no effect at all;
for every `storyIndex > 0` it issues exactly one animated
`scrollToIndex` command targeting `storyIndex - 1` and nothing else. -/
theorem previousStory_spec (storyIndex : Int) :
    (storyIndex = 0 → previousStory storyIndex = []) ∧
    (0 < storyIndex →
      previousStory storyIndex =
        [Effect.scrollToIndex (storyIndex - 1) true]) := by
  constructor
  · intro h
    simp [previousStory, h]
  · intro h
    have h0 : storyIndex ≠ 0 := by omega
    simp [previousStory, h0]

/-- Witness for C2: at index 0 nothing happens; at index 2 one scroll to
index 1 is issued. -/
theorem previousStory_spec_witness :
    previousStory 0 = [] ∧
    previousStory 2 = [Effect.scrollToIndex 1 true] :=
  ⟨(previousStory_spec 0).1 rfl, (previousStory_spec 2).2 (by decide)⟩

/-- An imperative command received by a child `StoryContainer` through
its `storyRef`: `pause(b)` or `handleLongPress(v)`. -/
inductive StoryCmd where
  | pause (b : Bool)
  | longPress (v : Bool)
  deriving DecidableEq, Repr

/-- The imperative handle a mounted `MultiStoryListItem` exposes through
`useImperativeHandle` (part_000 lines 54-59): each field gives the list
of commands forwarded to the child `StoryContainer` via `storyRef`. -/
structure ListItemRef where
  onScrollBegin : List StoryCmd
  onScrollEnd : List StoryCmd
  handleLongPress : Bool → List StoryCmd

/-- The handle actually installed by `MultiStoryListItem`:
`onScrollBegin` pauses the child (`pause(true)`), `onScrollEnd` resumes
it (`pause(false)`), and `handleLongPress` forwards its argument. -/
def multiStoryListItemHandle : ListItemRef where
  onScrollBegin := [StoryCmd.pause true]
  onScrollEnd := [StoryCmd.pause false]
  handleLongPress := fun visibility => [StoryCmd.longPress visibility]

/-- `itemsRef.current[storyIndex]?.f()` (part_000 lines 126-130): look
up the item handle registered at `storyIndex` and, when it is mounted,
run the selected handle method, tagging each resulting child command
with the index it was delivered to. -/
def dispatchToItem (itemsRef : Int → Option ListItemRef) (storyIndex : Int)
    (f : ListItemRef → List StoryCmd) : List (Int × StoryCmd) :=
  match itemsRef storyIndex with
  | none => []
  | some r => (f r).map (fun c => (storyIndex, c))

/-- `onScrollBeginDrag` of the container (part_000 line 126). -/
def onScrollBeginDrag (itemsRef : Int → Option ListItemRef)
    (storyIndex : Int) : List (Int × StoryCmd) :=
  dispatchToItem itemsRef storyIndex (fun r => r.onScrollBegin)

/-- `onScrollEndDrag` of the container (part_000 line 127). -/
def onScrollEndDrag (itemsRef : Int → Option ListItemRef)
    (storyIndex : Int) : List (Int × StoryCmd) :=
  dispatchToItem itemsRef storyIndex (fun r => r.onScrollEnd)

/-- `handleLongPress` of the container (part_000 lines 128-130). -/
def containerHandleLongPress (itemsRef : Int → Option ListItemRef)
    (storyIndex : Int) (visibility : Bool) : List (Int × StoryCmd) :=
  dispatchToItem itemsRef storyIndex (fun r => r.handleLongPress visibility)

end StoryView

namespace StoryView

/-- C3: when the item at the active index `storyIndex` is mounted with
the `MultiStoryListItem` handle, the container's `onScrollBegin` sends
exactly `pause(true)` to that item's child story component, its
`onScrollEnd` sends exactly `pause(false)`, and `handleLongPress(v)`
sends exactly `handleLongPress(v)`, each delivered to index
`storyIndex` only. -/
theorem imperativeHandle_forwarding (itemsRef : Int → Option ListItemRef)
    (storyIndex : Int)
    (h : itemsRef storyIndex = some multiStoryListItemHandle) :
    onScrollBeginDrag itemsRef storyIndex =
      [(storyIndex, StoryCmd.pause true)] ∧
    onScrollEndDrag itemsRef storyIndex =
      [(storyIndex, StoryCmd.pause false)] ∧
    ∀ v : Bool, containerHandleLongPress itemsRef storyIndex v =
      [(storyIndex, StoryCmd.longPress v)] := by
  refine ⟨?_, ?_, ?_⟩ <;>
    simp [onScrollBeginDrag, onScrollEndDrag, containerHandleLongPress,
      dispatchToItem, h, multiStoryListItemHandle]

/-- Witness for C3: a concrete ref table with the handle mounted at
index 1. -/
theorem imperativeHandle_forwarding_witness :
    onScrollBeginDrag (fun _ => some multiStoryListItemHandle) 1 =
      [(1, StoryCmd.pause true)] ∧
    onScrollEndDrag (fun _ => some multiStoryListItemHandle) 1 =
      [(1, StoryCmd.pause false)] ∧
    containerHandleLongPress (fun _ => some multiStoryListItemHandle) 1 true =
      [(1, StoryCmd.longPress true)] := by
  obtain ⟨h1, h2, h3⟩ :=
    imperativeHandle_forwarding (fun _ => some multiStoryListItemHandle) 1 rfl
  exact ⟨h1, h2, h3 true⟩

/-- The `TransitionMode` enumeration from `./types` (the types file of
the MultiStoryContainer is not part of the excerpt; its three values
`Default`, `Cube` and `Scale` are the ones the switch at part_000 lines
61-70 matches on). -/
inductive TransitionMode where
  | default
  | cube
  | scale
  deriving DecidableEq, Repr

/-- Modelled from the spec: the animated style values produced by the
transition builders of `./utils/StoryTransitions`
(`cubeTransition`, `scaleTransition`, `defaultTransition`), whose source
is not part of the excerpt; each is kept as a distinct labelled style
carrying the arguments the component passes it. -/
inductive AnimatedStyle where
  | cubeTransition (index : Nat) (scrollX : Int)
  | scaleTransition (index : Nat) (scrollX : Int)
  | defaultTransition
  deriving DecidableEq, Repr

/-- `animationStyle` (part_000 lines 61-70): switch on
`props.transitionMode`; `none` models the prop being absent, which the
JS `switch` sends to the `default` branch. -/
def animationStyle (transitionMode : Option TransitionMode) (index : Nat)
    (scrollX : Int) : AnimatedStyle :=
  match transitionMode with
  | some TransitionMode.cube => AnimatedStyle.cubeTransition index scrollX
  | some TransitionMode.scale => AnimatedStyle.scaleTransition index scrollX
  | _ => AnimatedStyle.defaultTransition

/-- C6: the animated transition style is selected solely by the
`transitionMode` prop: `cubeTransition(index, scrollX)` for `Cube`,
`scaleTransition(index, scrollX)` for `Scale`, and `defaultTransition()`
for every other value, including an absent prop. -/
theorem animationStyle_spec (transitionMode : Option TransitionMode)
    (index : Nat) (scrollX : Int) :
    (transitionMode = some TransitionMode.cube →
      animationStyle transitionMode index scrollX =
        AnimatedStyle.cubeTransition index scrollX) ∧
    (transitionMode = some TransitionMode.scale →
      animationStyle transitionMode index scrollX =
        AnimatedStyle.scaleTransition index scrollX) ∧
    (transitionMode ≠ some TransitionMode.cube →
      transitionMode ≠ some TransitionMode.scale →
      animationStyle transitionMode index scrollX =
        AnimatedStyle.defaultTransition) := by
  refine ⟨?_, ?_, ?_⟩
  · intro h; simp [animationStyle, h]
  · intro h; simp [animationStyle, h]
  · intro h1 h2
    match transitionMode with
    | none => rfl
    | some TransitionMode.default => rfl
    | some TransitionMode.cube => exact absurd rfl h1
    | some TransitionMode.scale => exact absurd rfl h2

/-- Witness for C6 at index 2, scrollX 5: the three branches on concrete
modes, including the absent prop. -/
theorem animationStyle_spec_witness :
    animationStyle (some TransitionMode.cube) 2 5 =
      AnimatedStyle.cubeTransition 2 5 ∧
    animationStyle (some TransitionMode.scale) 2 5 =
      AnimatedStyle.scaleTransition 2 5 ∧
    animationStyle none 2 5 = AnimatedStyle.defaultTransition :=
  ⟨(animationStyle_spec (some TransitionMode.cube) 2 5).1 rfl,
   (animationStyle_spec (some TransitionMode.scale) 2 5).2.1 rfl,
   (animationStyle_spec none 2 5).2.2 (by decide) (by decide)⟩

/-- JavaScript `array.findIndex((val: boolean) => !val)` as used at
part_000 lines 50-52: the index of the first `false` entry of a list of
viewed flags, or `-1` when every entry is `true`. -/
def jsFindFirstNotViewed : List Bool → Int
  | [] => -1
  | b :: t =>
    if b = false then 0
    else if jsFindFirstNotViewed t = -1 then -1
    else jsFindFirstNotViewed t + 1

/-- `storyInitialIndex` (part_000 lines 50-52):
`viewedStories?.[index]?.findIndex((val) => !val)`; `none` models the
JS `undefined` produced when `viewedStories[index]` is absent. -/
def storyInitialIndex (viewedStories : List (List Bool)) (index : Nat) :
    Option Int :=
  (viewedStories.get? index).map jsFindFirstNotViewed

/-- The `progressIndex` prop value at part_000 line 84:
`storyInitialIndex < 0 ? 0 : storyInitialIndex`. When
`storyInitialIndex` is `undefined`, the JS comparison `undefined < 0`
is `false`, so the ternary yields `undefined` again. -/
def progressIndexProp (si : Option Int) : Option Int :=
  match si with
  | some v => some (if v < 0 then 0 else v)
  | none => none

/-- `jsFindFirstNotViewed` either returns `-1` with every entry viewed,
or the index of the first unviewed (`false`) entry. -/
theorem jsFindFirstNotViewed_cases : ∀ l : List Bool,
    (jsFindFirstNotViewed l = -1 ∧ ∀ b ∈ l, b = true) ∨
    ∃ j : Nat, jsFindFirstNotViewed l = (j : Int) ∧
      l.get? j = some false ∧ ∀ k, k < j → l.get? k = some true
  | [] => Or.inl ⟨rfl, by simp⟩
  | b :: t => by
    cases b with
    | false =>
      refine Or.inr ⟨0, ?_, rfl, ?_⟩
      · simp [jsFindFirstNotViewed]
      · intro k hk; omega
    | true =>
      rcases jsFindFirstNotViewed_cases t with ⟨h1, h2⟩ | ⟨j, hj, hget, hlt⟩
      · refine Or.inl ⟨?_, ?_⟩
        · simp [jsFindFirstNotViewed, h1]
        · intro x hx
          rcases List.mem_cons.mp hx with hx | hx
          · exact hx
          · exact h2 x hx
      · refine Or.inr ⟨j + 1, ?_, ?_, ?_⟩
        · have hne : jsFindFirstNotViewed t ≠ -1 := by omega
          simp [jsFindFirstNotViewed, hne, hj]
        · simpa using hget
        · intro k hk
          match k with
          | 0 => rfl
          | Nat.succ k' =>
            have : k' < j := by omega
            simpa using hlt k' this

/-- C5: for every list item whose `viewedStories[index]` array is
present, the `progressIndex` passed to its `StoryContainer` is defined
and non-negative, equals `0` when every entry is viewed, and equals the
position of the first unviewed (`false`) entry when one exists. -/
theorem progressIndex_spec (viewedStories : List (List Bool)) (index : Nat)
    (l : List Bool) (h : viewedStories.get? index = some l) :
    ∃ p : Int,
      progressIndexProp (storyInitialIndex viewedStories index) = some p ∧
      0 ≤ p ∧
      ((∀ b ∈ l, b = true) → p = 0) ∧
      (∀ j : Nat, l.get? j = some false →
        (∀ k, k < j → l.get? k = some true) → p = (j : Int)) := by
  have hsi : storyInitialIndex viewedStories index =
      some (jsFindFirstNotViewed l) := by
    show (viewedStories.get? index).map jsFindFirstNotViewed =
      some (jsFindFirstNotViewed l)
    rw [h]
    rfl
  refine ⟨if jsFindFirstNotViewed l < 0 then 0 else jsFindFirstNotViewed l,
    ?_, ?_, ?_, ?_⟩
  · simp [progressIndexProp, hsi]
  · split <;> omega
  · intro hall
    rcases jsFindFirstNotViewed_cases l with ⟨h1, _⟩ | ⟨j, _, hget, _⟩
    · simp [h1]
    · have : (false : Bool) = true := hall false (List.get?_mem hget)
      exact absurd this (by decide)
  · intro j hj hfirst
    rcases jsFindFirstNotViewed_cases l with ⟨_, h2⟩ | ⟨j', hj', hget', hlt'⟩
    · have : (false : Bool) = true := h2 false (List.get?_mem hj)
      exact absurd this (by decide)
    · have hjj : j = j' := by
        rcases Nat.lt_trichotomy j j' with hlt | heq | hgt
        · have := hlt' j hlt
          rw [hj] at this
          exact absurd this (by simp)
        · exact heq
        · have := hfirst j' hgt
          rw [hget'] at this
          exact absurd this (by simp)
      subst hjj
      rw [hj']
      have : ¬ ((j : Int) < 0) := by omega
      simp [this]

/-- Witness for C5 at `viewedStories = [[true, false, true]]`,
`index = 0`: the first unviewed entry is at position 1. -/
theorem progressIndex_spec_witness :
    ∃ p : Int,
      progressIndexProp (storyInitialIndex [[true, false, true]] 0) = some p ∧
      0 ≤ p ∧
      ((∀ b ∈ [true, false, true], b = true) → p = 0) ∧
      (∀ j : Nat, [true, false, true].get? j = some false →
        (∀ k, k < j → [true, false, true].get? k = some true) →
        p = (j : Int)) :=
  progressIndex_spec [[true, false, true]] 0 [true, false, true] rfl

/-- The props of the `StoryContainer` element a list item mounts
(part_000 lines 76-100) that the claims talk about. `maxVideoDuration`
is the merged value: the literal `15` at line 85 unless the later
`{...props}` spread (line 97) supplies one. -/
structure StoryContainerElem where
  visible : Bool
  progressIndex : Option Int
  maxVideoDuration : Int
  index : Nat
  userStoryIndex : Int
  deriving DecidableEq, Repr

/-- What a `MultiStoryListItem` renders inside its outer view: either
the full story-group content (a `StoryContainer`), or the indicator
placeholder (`props?.renderIndicatorComponent?.() ?? <Indicator />`,
line 103). -/
inductive RenderedItem where
  | story (e : StoryContainerElem)
  | indicator
  deriving DecidableEq, Repr

/-- The render body of `MultiStoryListItem` (part_000 lines 72-106):
the `StoryContainer` is mounted when `storyIndex === index || isLoading`
holds, the indicator placeholder otherwise.
`propsMaxVideoDuration` models the optional `maxVideoDuration` carried
by the forwarded `{...props}`; when present it overrides the literal
`15` because the spread follows the literal. -/
def multiStoryListItem (storyIndex : Int) (index : Nat) (isLoading : Bool)
    (viewedStories : List (List Bool))
    (propsMaxVideoDuration : Option Int) : RenderedItem :=
  if storyIndex = (index : Int) ∨ isLoading = true then
    RenderedItem.story
      { visible := true
        progressIndex := progressIndexProp (storyInitialIndex viewedStories index)
        maxVideoDuration :=
          match propsMaxVideoDuration with
          | some v => v
          | none => 15
        index := index
        userStoryIndex := storyIndex }
  else
    RenderedItem.indicator

end StoryView

namespace StoryView

/-- Counterexample to C4 as stated: once `onLayout` has fired
(`isLoading = true`), the item at index 1 mounts the full
`StoryContainer` even though the current `storyIndex` is 0, instead of
the indicator placeholder the claim requires for every non-active
index. -/
theorem multiStoryListItem_only_active_counterexample :
    (0 : Int) ≠ ((1 : Nat) : Int) ∧
    multiStoryListItem 0 1 true [] none ≠ RenderedItem.indicator := by
  decide

/-- C4 (amended): an item renders the indicator placeholder exactly when
its index differs from the current `storyIndex` AND `isLoading` is still
false; it mounts the full story-group content (`StoryContainer`) when
its index equals `storyIndex` or when `isLoading` is true (which
`onLayout` sets, after which every item mounts its `StoryContainer`). -/
theorem multiStoryListItem_render_spec (storyIndex : Int) (index : Nat)
    (isLoading : Bool) (viewedStories : List (List Bool))
    (propsMaxVideoDuration : Option Int) :
    (storyIndex ≠ (index : Int) → isLoading = false →
      multiStoryListItem storyIndex index isLoading viewedStories
        propsMaxVideoDuration = RenderedItem.indicator) ∧
    (storyIndex = (index : Int) ∨ isLoading = true →
      ∃ e : StoryContainerElem,
        multiStoryListItem storyIndex index isLoading viewedStories
          propsMaxVideoDuration = RenderedItem.story e ∧
        e.visible = true ∧ e.index = index ∧ e.userStoryIndex = storyIndex) := by
  constructor
  · intro h1 h2
    have hn : ¬ (storyIndex = (index : Int) ∨ isLoading = true) := by
      subst h2
      simpa using h1
    simp only [multiStoryListItem, if_neg hn]
  · intro h
    refine ⟨⟨true, progressIndexProp (storyInitialIndex viewedStories index),
      match propsMaxVideoDuration with
      | some v => v
      | none => 15, index, storyIndex⟩, ?_, rfl, rfl, rfl⟩
    simp only [multiStoryListItem, if_pos h]

/-- Witness for the amended C4: with `storyIndex = 0` and `isLoading`
false, index 1 shows the indicator, while index 0 mounts its
`StoryContainer`. -/
theorem multiStoryListItem_render_spec_witness :
    multiStoryListItem 0 1 false [] none = RenderedItem.indicator ∧
    ∃ e : StoryContainerElem,
      multiStoryListItem 0 0 false [] none = RenderedItem.story e ∧
      e.visible = true ∧ e.index = 0 ∧ e.userStoryIndex = 0 :=
  ⟨(multiStoryListItem_render_spec 0 1 false [] none).1 (by decide) rfl,
   (multiStoryListItem_render_spec 0 0 false [] none).2 (Or.inl rfl)⟩

/-- C10: when the forwarded props do not supply a `maxVideoDuration`,
every `StoryContainer` mounted by a list item receives
`maxVideoDuration = 15`. -/
theorem maxVideoDuration_default (storyIndex : Int) (index : Nat)
    (isLoading : Bool) (viewedStories : List (List Bool))
    (e : StoryContainerElem)
    (h : multiStoryListItem storyIndex index isLoading viewedStories none =
      RenderedItem.story e) :
    e.maxVideoDuration = 15 := by
  by_cases hc : storyIndex = (index : Int) ∨ isLoading = true
  · simp only [multiStoryListItem, if_pos hc] at h
    cases h
    rfl
  · simp only [multiStoryListItem, if_neg hc] at h
    exact absurd h (by simp)

/-- Witness for C10: the `StoryContainer` mounted at the active index 0
carries `maxVideoDuration = 15`. -/
theorem maxVideoDuration_default_witness :
    ∃ e : StoryContainerElem,
      multiStoryListItem 0 0 false [] none = RenderedItem.story e ∧
      e.maxVideoDuration = 15 :=
  ⟨_, rfl, maxVideoDuration_default 0 0 false [] _ rfl⟩

/-- The record returned by `getItemLayout` (part_000 lines 198-202). -/
structure ItemLayout where
  length : Int
  offset : Int
  index : Nat
  deriving DecidableEq, Repr

/-- `getItemLayout` (part_000 lines 198-202): every item is
`Metrics.screenWidth` long at offset `Metrics.screenWidth * index`.
`screenWidth` stands for `Metrics.screenWidth` from the theme module,
which is not part of the excerpt; it is kept as a parameter. -/
def getItemLayout (screenWidth : Int) (index : Nat) : ItemLayout where
  length := screenWidth
  offset := screenWidth * index
  index := index

/-- The `contentContainerStyle` width (part_000 lines 208-210):
`Metrics.screenWidth * stories.length`. -/
def contentContainerWidth (screenWidth : Int) (storiesLen : Nat) : Int :=
  screenWidth * storiesLen

/-- C7: item `i` has length `screenWidth` and offset `screenWidth * i`,
the content container is `screenWidth * stories.length` wide, and the
pages tile: each item ends exactly where the next begins, and the item
after the last ends exactly at the container's width, so each story
group occupies exactly one horizontal page. -/
theorem getItemLayout_spec (screenWidth : Int) (i storiesLen : Nat) :
    (getItemLayout screenWidth i).length = screenWidth ∧
    (getItemLayout screenWidth i).offset = screenWidth * i ∧
    contentContainerWidth screenWidth storiesLen =
      screenWidth * storiesLen ∧
    (getItemLayout screenWidth i).offset + (getItemLayout screenWidth i).length =
      (getItemLayout screenWidth (i + 1)).offset ∧
    (storiesLen = i + 1 →
      (getItemLayout screenWidth i).offset +
        (getItemLayout screenWidth i).length =
        contentContainerWidth screenWidth storiesLen) := by
  refine ⟨rfl, rfl, rfl, ?_, ?_⟩
  · show screenWidth * i + screenWidth = screenWidth * (↑i + 1)
    ring
  · intro h
    subst h
    show screenWidth * i + screenWidth = screenWidth * (↑i + 1)
    ring

/-- Witness for C7 at `screenWidth = 400`, item 2 of 3. -/
theorem getItemLayout_spec_witness :
    (getItemLayout 400 2).length = 400 ∧
    (getItemLayout 400 2).offset = 400 * 2 ∧
    contentContainerWidth 400 3 = 400 * 3 ∧
    (getItemLayout 400 2).offset + (getItemLayout 400 2).length =
      (getItemLayout 400 3).offset ∧
    (3 = 2 + 1 →
      (getItemLayout 400 2).offset + (getItemLayout 400 2).length =
        contentContainerWidth 400 3) :=
  getItemLayout_spec 400 2 3

/-- The element tree rendered by `MultiStoryContainer` when it renders
at all (part_000 lines 176-233): a transparent `Modal` wrapping the
horizontal list, whose item at index `i` is the render of
`MultiStoryListItem` for `stories[i]`. -/
structure ModalTree where
  modalVisible : Bool
  transparent : Bool
  items : List RenderedItem
  deriving DecidableEq, Repr

/-- The render body of `MultiStoryContainer` (part_000 lines 154-233):
`if (!visible) return null` (modelled as `none`), otherwise the modal
tree with one rendered list item per story group. -/
def multiStoryContainer (visible : Bool) (storiesLen : Nat)
    (storyIndex : Int) (isLoading : Bool)
    (viewedStories : List (List Bool))
    (propsMaxVideoDuration : Option Int) : Option ModalTree :=
  if visible = false then
    none
  else
    some
      { modalVisible := visible
        transparent := true
        items := (List.range storiesLen).map fun i =>
          multiStoryListItem storyIndex i isLoading viewedStories
            propsMaxVideoDuration }

/-- C8: with `visible = false`, `MultiStoryContainer` renders nothing at
all (`null`): no modal, no list and no story content is mounted,
whatever the rest of the state is. -/
theorem multiStoryContainer_invisible (storiesLen : Nat) (storyIndex : Int)
    (isLoading : Bool) (viewedStories : List (List Bool))
    (propsMaxVideoDuration : Option Int) :
    multiStoryContainer false storiesLen storyIndex isLoading viewedStories
      propsMaxVideoDuration = none := rfl

/-- React `useEffect` dependency semantics for the effect at part_000
lines 150-152, whose dependency array is
`[onUserStoryIndexChange, storyIndex]`: with a stable callback, the
body re-runs exactly on first mount (`prevStoryIndex = none`) and when
`storyIndex` differs from the previous render; the body
`onUserStoryIndexChange?.(storyIndex)` then invokes the callback when
it is provided. The result lists the values the callback is invoked
with. -/
def userStoryIndexEffectCalls (hasCallback : Bool)
    (prevStoryIndex : Option Int) (storyIndex : Int) : List Int :=
  if prevStoryIndex = some storyIndex then
    []
  else if hasCallback then
    [storyIndex]
  else
    []

/-- C9: whenever `storyIndex` differs from the previous render's value
(which covers the first mount, where there is no previous value), the
`onUserStoryIndexChange` callback, when provided, is invoked with the
new `storyIndex`. -/
theorem onUserStoryIndexChange_fires (prevStoryIndex : Option Int)
    (storyIndex : Int) (h : prevStoryIndex ≠ some storyIndex) :
    userStoryIndexEffectCalls true prevStoryIndex storyIndex =
      [storyIndex] := by
  simp [userStoryIndexEffectCalls, h]

/-- Witness for C9: on first mount (no previous value) the callback is
invoked with the mounted index 0. -/
theorem onUserStoryIndexChange_fires_witness :
    userStoryIndexEffectCalls true none 0 = [0] :=
  onUserStoryIndexChange_fires none 0 (by simp)

end StoryView
